import Mathlib

/-!
Verification development for the health-metrics incremental ingestion-and-anomaly
pipeline (Python backend + Next.js frontend).  Calendar dates are embedded as
natural numbers (day ordinals); metric values as rationals; absent values as
Option.  The frontend TypeScript sources are embedded directly; backend
components that exist only as collaborators of the frontend are modelled from
the specification, each such definition saying so in its doc comment.
-/

namespace Chronic

/-! ### Date ranges and the gap resolver -/

/-- The inclusive ascending list of day ordinals from start to finish. -/
def rangeList (start finish : Nat) : List Nat :=
  (List.range (finish + 1 - start)).map (fun i => start + i)

/-- Modelled from the spec: the backend gap resolver (src/pipeline.py in the
README layout) is not present under the frontend sources.  Spec 4.2: given a
requested inclusive range and the set of dates already durably stored, return
the ordered ascending list of dates in the range not present in storage. -/
def dateGapResolver (start finish : Nat) (stored : List Nat) : List Nat :=
  (rangeList start finish).filter (fun d => decide (d ∉ stored))

theorem mem_rangeList (start finish d : Nat) :
    d ∈ rangeList start finish ↔ start ≤ d ∧ d ≤ finish := by
  simp only [rangeList, List.mem_map, List.mem_range]
  constructor
  · rintro ⟨i, hi, rfl⟩; omega
  · rintro ⟨h1, h2⟩; exact ⟨d - start, by omega, by omega⟩

theorem rangeList_sorted (start finish : Nat) :
    (rangeList start finish).Sorted (· < ·) := by
  have h := List.sorted_lt_range (finish + 1 - start)
  exact List.Pairwise.map _ (fun a b hab => by omega) h

theorem mem_dateGapResolver (start finish d : Nat) (stored : List Nat) :
    d ∈ dateGapResolver start finish stored ↔
      (start ≤ d ∧ d ≤ finish) ∧ d ∉ stored := by
  simp [dateGapResolver, List.mem_filter, mem_rangeList]

/-- C1: for every requested range with start ≤ finish and every stored set,
dateGapResolver returns exactly the ascending list of in-range dates absent
from storage: membership characterises it, it is sorted ascending, it is empty
iff the range is fully covered, and it is the full range when nothing is
stored. -/
theorem dateGapResolver_correct (start finish : Nat) (stored : List Nat)
    (h : start ≤ finish) :
    (∀ d, d ∈ dateGapResolver start finish stored ↔
        (start ≤ d ∧ d ≤ finish) ∧ d ∉ stored) ∧
    (dateGapResolver start finish stored).Sorted (· < ·) ∧
    (dateGapResolver start finish stored = [] ↔
        ∀ d, start ≤ d → d ≤ finish → d ∈ stored) ∧
    dateGapResolver start finish [] = rangeList start finish := by
  refine ⟨fun d => mem_dateGapResolver start finish d stored, ?_, ?_, ?_⟩
  · exact (rangeList_sorted start finish).sublist (List.filter_sublist _)
  · rw [dateGapResolver, List.filter_eq_nil_iff]
    constructor
    · intro hall d h1 h2
      have := hall d ((mem_rangeList start finish d).2 ⟨h1, h2⟩)
      simpa using this
    · intro hall d hd
      have := (mem_rangeList start finish d).1 hd
      simp [hall d this.1 this.2]
  · simp [dateGapResolver]

/-- C1 witness: concrete instance with range 1..3 and stored dates {2}. -/
theorem dateGapResolver_correct_witness :
    (∀ d, d ∈ dateGapResolver 1 3 [2] ↔ (1 ≤ d ∧ d ≤ 3) ∧ d ∉ ([2] : List Nat)) ∧
    (dateGapResolver 1 3 [2]).Sorted (· < ·) ∧
    (dateGapResolver 1 3 [2] = [] ↔ ∀ d, 1 ≤ d → d ≤ 3 → d ∈ ([2] : List Nat)) ∧
    dateGapResolver 1 3 [] = rangeList 1 3 :=
  dateGapResolver_correct 1 3 [2] (by decide)

/-! ### Metric records and the anomaly detector -/

/-- One day's raw metric channels; a channel value may be absent. -/
structure RawDaily where
  hrv : Option ℚ
  resting_hr : Option ℚ
  sleep_score : Option ℚ
  steps : Option ℚ
deriving DecidableEq, Repr

/-- The canonical per-day record for one subject: a calendar date plus the
raw channels. -/
structure MetricRecord where
  date : Nat
  metrics : RawDaily
deriving DecidableEq, Repr

/-- Ascending sort of a list of rationals (the order used for medians). -/
def sortedAsc (xs : List ℚ) : List ℚ :=
  xs.insertionSort (· ≤ ·)

/-- Median of a list of rationals: the middle element of the ascending sort
for odd length, the mean of the two middle elements for even length, none for
the empty list. -/
def median (xs : List ℚ) : Option ℚ :=
  let s := sortedAsc xs
  if s.length = 0 then none
  else if s.length % 2 = 1 then some (s.getD (s.length / 2) 0)
  else some ((s.getD (s.length / 2 - 1) 0 + s.getD (s.length / 2) 0) / 2)

/-- The values of one channel over the trailing window of up to 7 calendar
days strictly before day d (dates d-7 .. d-1), absent values excluded. -/
def trailingWindow (recs : List MetricRecord) (ch : RawDaily → Option ℚ)
    (d : Nat) : List ℚ :=
  (recs.filter (fun r => r.date < d && d ≤ r.date + 7)).filterMap
    (fun r => ch r.metrics)

/-- Modelled from the spec: the backend detector (src/anomaly_detection.py in
the README layout) is not present under the frontend sources.  Spec 4.1 step
1: the baseline for a channel at day d is the median of the channel's values
over the trailing window of up to 7 calendar days strictly before d; undefined
when the window holds no values. -/
def baseline (recs : List MetricRecord) (ch : RawDaily → Option ℚ)
    (d : Nat) : Option ℚ :=
  median (trailingWindow recs ch d)

/-- One relative threshold per channel (spec 4.1 step 2). -/
structure Thresholds where
  t_hrv : ℚ
  t_rhr : ℚ
  t_sleep : ℚ
  t_steps : ℚ
deriving DecidableEq, Repr

/-- value < baseline * (1 - t); false when either side is absent. -/
def relLow (t : ℚ) (v b : Option ℚ) : Bool :=
  match v, b with
  | some x, some y => decide (x < y * (1 - t))
  | _, _ => false

/-- value > baseline * (1 + t); false when either side is absent. -/
def relHigh (t : ℚ) (v b : Option ℚ) : Bool :=
  match v, b with
  | some x, some y => decide (x > y * (1 + t))
  | _, _ => false

/-- The four per-day flags plus the derived fields (spec 3, AnomalyFlags). -/
structure AnomalyFlags where
  low_hrv : Bool
  high_resting_hr : Bool
  low_sleep : Bool
  low_steps : Bool
  is_anomalous : Bool
  severity : Nat
deriving DecidableEq, Repr

/-- Modelled from the spec: spec 4.1 steps 2-4 — compare each channel's value
for the day against its trailing-median baseline with a directional relative
threshold; is_anomalous is the OR of the four flags and severity their
count. -/
def computeFlags (T : Thresholds) (recs : List MetricRecord)
    (r : MetricRecord) : AnomalyFlags :=
  let f1 := relLow T.t_hrv r.metrics.hrv (baseline recs (fun m => m.hrv) r.date)
  let f2 := relHigh T.t_rhr r.metrics.resting_hr
      (baseline recs (fun m => m.resting_hr) r.date)
  let f3 := relLow T.t_sleep r.metrics.sleep_score
      (baseline recs (fun m => m.sleep_score) r.date)
  let f4 := relLow T.t_steps r.metrics.steps
      (baseline recs (fun m => m.steps) r.date)
  { low_hrv := f1, high_resting_hr := f2, low_sleep := f3, low_steps := f4
    is_anomalous := f1 || f2 || f3 || f4
    severity := (if f1 then 1 else 0) + (if f2 then 1 else 0)
      + (if f3 then 1 else 0) + (if f4 then 1 else 0) }

/-- Modelled from the spec: annotate every record of the ascending history
with its AnomalyFlags (spec 4.1 contract). -/
def detect (T : Thresholds) (recs : List MetricRecord) :
    List (MetricRecord × AnomalyFlags) :=
  recs.map (fun r => (r, computeFlags T recs r))

/-! ### Frontend anomaly rendering (AnomaliesPanel.tsx) -/

/-- Client-side anomaly record as delivered by the API (lib/api.ts Anomaly,
restricted to the fields the dashboard logic reads). -/
structure Anomaly where
  date : Nat
  low_hrv_flag : Bool
  high_rhr_flag : Bool
  low_sleep_flag : Bool
  low_steps_flag : Bool
  anomaly_severity : Option Nat
deriving DecidableEq, Repr

/-- A flag badge as built by AnomaliesPanel.getFlagBadges. -/
structure FlagBadge where
  label : String
  variant : String
  key : String
deriving DecidableEq, Repr

/-- AnomaliesPanel.tsx getFlagBadges: one badge per true flag, in the fixed
order low_hrv, high_rhr, low_sleep, low_steps. -/
def getFlagBadges (a : Anomaly) : List FlagBadge :=
  (if a.low_hrv_flag then [⟨"Low HRV", "destructive", "low_hrv"⟩] else [])
  ++ (if a.high_rhr_flag then [⟨"High RHR", "destructive", "high_rhr"⟩] else [])
  ++ (if a.low_sleep_flag then [⟨"Low Sleep", "warning", "low_sleep"⟩] else [])
  ++ (if a.low_steps_flag then [⟨"Low Steps", "warning", "low_steps"⟩] else [])

/-- The client-side record corresponding to a detector output. -/
def mkAnomaly (d : Nat) (F : AnomalyFlags) : Anomaly :=
  { date := d, low_hrv_flag := F.low_hrv, high_rhr_flag := F.high_resting_hr
    low_sleep_flag := F.low_sleep, low_steps_flag := F.low_steps
    anomaly_severity := some F.severity }

/-- C3: is_anomalous is the OR of the four flags, severity is the exact count
of true flags (0 when none, never above 4), and the dashboard renders exactly
severity-many flag badges for the record. -/
theorem is_anomalous_iff_severity_count (T : Thresholds)
    (recs : List MetricRecord) (r : MetricRecord) :
    ((computeFlags T recs r).is_anomalous = true ↔
      ((computeFlags T recs r).low_hrv = true ∨
       (computeFlags T recs r).high_resting_hr = true ∨
       (computeFlags T recs r).low_sleep = true ∨
       (computeFlags T recs r).low_steps = true)) ∧
    (computeFlags T recs r).severity =
      ((if (computeFlags T recs r).low_hrv then 1 else 0)
        + (if (computeFlags T recs r).high_resting_hr then 1 else 0)
        + (if (computeFlags T recs r).low_sleep then 1 else 0)
        + (if (computeFlags T recs r).low_steps then 1 else 0)) ∧
    (computeFlags T recs r).severity ≤ 4 ∧
    ((computeFlags T recs r).is_anomalous = false ↔
      (computeFlags T recs r).severity = 0) ∧
    (getFlagBadges (mkAnomaly r.date (computeFlags T recs r))).length =
      (computeFlags T recs r).severity := by
  cases h1 : relLow T.t_hrv r.metrics.hrv
      (baseline recs (fun m => m.hrv) r.date) <;>
    cases h2 : relHigh T.t_rhr r.metrics.resting_hr
      (baseline recs (fun m => m.resting_hr) r.date) <;>
    cases h3 : relLow T.t_sleep r.metrics.sleep_score
      (baseline recs (fun m => m.sleep_score) r.date) <;>
    cases h4 : relLow T.t_steps r.metrics.steps
      (baseline recs (fun m => m.steps) r.date) <;>
    simp [computeFlags, mkAnomaly, getFlagBadges, h1, h2, h3, h4]

/-- C3 witness: the flag identities at a concrete record and history. -/
theorem is_anomalous_iff_severity_count_witness :
    ((computeFlags ⟨15/100, 15/100, 15/100, 15/100⟩
        [⟨1, some 50, some 60, some 80, some 10000⟩,
         ⟨2, some 20, some 90, some 30, some 1000⟩]
        ⟨2, some 20, some 90, some 30, some 1000⟩).is_anomalous = true ↔
      ((computeFlags ⟨15/100, 15/100, 15/100, 15/100⟩
          [⟨1, some 50, some 60, some 80, some 10000⟩,
           ⟨2, some 20, some 90, some 30, some 1000⟩]
          ⟨2, some 20, some 90, some 30, some 1000⟩).low_hrv = true ∨
       (computeFlags ⟨15/100, 15/100, 15/100, 15/100⟩
          [⟨1, some 50, some 60, some 80, some 10000⟩,
           ⟨2, some 20, some 90, some 30, some 1000⟩]
          ⟨2, some 20, some 90, some 30, some 1000⟩).high_resting_hr = true ∨
       (computeFlags ⟨15/100, 15/100, 15/100, 15/100⟩
          [⟨1, some 50, some 60, some 80, some 10000⟩,
           ⟨2, some 20, some 90, some 30, some 1000⟩]
          ⟨2, some 20, some 90, some 30, some 1000⟩).low_sleep = true ∨
       (computeFlags ⟨15/100, 15/100, 15/100, 15/100⟩
          [⟨1, some 50, some 60, some 80, some 10000⟩,
           ⟨2, some 20, some 90, some 30, some 1000⟩]
          ⟨2, some 20, some 90, some 30, some 1000⟩).low_steps = true)) ∧
    (computeFlags ⟨15/100, 15/100, 15/100, 15/100⟩
        [⟨1, some 50, some 60, some 80, some 10000⟩,
         ⟨2, some 20, some 90, some 30, some 1000⟩]
        ⟨2, some 20, some 90, some 30, some 1000⟩).severity =
      ((if (computeFlags ⟨15/100, 15/100, 15/100, 15/100⟩
          [⟨1, some 50, some 60, some 80, some 10000⟩,
           ⟨2, some 20, some 90, some 30, some 1000⟩]
          ⟨2, some 20, some 90, some 30, some 1000⟩).low_hrv then 1 else 0)
        + (if (computeFlags ⟨15/100, 15/100, 15/100, 15/100⟩
          [⟨1, some 50, some 60, some 80, some 10000⟩,
           ⟨2, some 20, some 90, some 30, some 1000⟩]
          ⟨2, some 20, some 90, some 30, some 1000⟩).high_resting_hr then 1 else 0)
        + (if (computeFlags ⟨15/100, 15/100, 15/100, 15/100⟩
          [⟨1, some 50, some 60, some 80, some 10000⟩,
           ⟨2, some 20, some 90, some 30, some 1000⟩]
          ⟨2, some 20, some 90, some 30, some 1000⟩).low_sleep then 1 else 0)
        + (if (computeFlags ⟨15/100, 15/100, 15/100, 15/100⟩
          [⟨1, some 50, some 60, some 80, some 10000⟩,
           ⟨2, some 20, some 90, some 30, some 1000⟩]
          ⟨2, some 20, some 90, some 30, some 1000⟩).low_steps then 1 else 0)) ∧
    (computeFlags ⟨15/100, 15/100, 15/100, 15/100⟩
        [⟨1, some 50, some 60, some 80, some 10000⟩,
         ⟨2, some 20, some 90, some 30, some 1000⟩]
        ⟨2, some 20, some 90, some 30, some 1000⟩).severity ≤ 4 ∧
    ((computeFlags ⟨15/100, 15/100, 15/100, 15/100⟩
        [⟨1, some 50, some 60, some 80, some 10000⟩,
         ⟨2, some 20, some 90, some 30, some 1000⟩]
        ⟨2, some 20, some 90, some 30, some 1000⟩).is_anomalous = false ↔
      (computeFlags ⟨15/100, 15/100, 15/100, 15/100⟩
        [⟨1, some 50, some 60, some 80, some 10000⟩,
         ⟨2, some 20, some 90, some 30, some 1000⟩]
        ⟨2, some 20, some 90, some 30, some 1000⟩).severity = 0) ∧
    (getFlagBadges (mkAnomaly 2 (computeFlags ⟨15/100, 15/100, 15/100, 15/100⟩
        [⟨1, some 50, some 60, some 80, some 10000⟩,
         ⟨2, some 20, some 90, some 30, some 1000⟩]
        ⟨2, some 20, some 90, some 30, some 1000⟩))).length =
      (computeFlags ⟨15/100, 15/100, 15/100, 15/100⟩
        [⟨1, some 50, some 60, some 80, some 10000⟩,
         ⟨2, some 20, some 90, some 30, some 1000⟩]
        ⟨2, some 20, some 90, some 30, some 1000⟩).severity :=
  is_anomalous_iff_severity_count ⟨15/100, 15/100, 15/100, 15/100⟩
    [⟨1, some 50, some 60, some 80, some 10000⟩,
     ⟨2, some 20, some 90, some 30, some 1000⟩]
    ⟨2, some 20, some 90, some 30, some 1000⟩

/-! ### Cold start: undefined baselines never flag (C5) -/

theorem relLow_of_value_none (t : ℚ) (b : Option ℚ) : relLow t none b = false := by
  cases b <;> rfl

theorem relHigh_of_value_none (t : ℚ) (b : Option ℚ) : relHigh t none b = false := by
  cases b <;> rfl

theorem relLow_of_baseline_none (t : ℚ) (v : Option ℚ) : relLow t v none = false := by
  cases v <;> rfl

theorem relHigh_of_baseline_none (t : ℚ) (v : Option ℚ) : relHigh t v none = false := by
  cases v <;> rfl

theorem trailingWindow_of_no_prior (recs : List MetricRecord)
    (ch : RawDaily → Option ℚ) (d : Nat) (h : ∀ x ∈ recs, ¬ x.date < d) :
    trailingWindow recs ch d = [] := by
  have : recs.filter (fun r => r.date < d && d ≤ r.date + 7) = [] := by
    rw [List.filter_eq_nil_iff]
    intro r hr
    simp only [Bool.and_eq_true, decide_eq_true_eq]
    rintro ⟨hlt, -⟩
    exact h r hr hlt
  simp [trailingWindow, this]

theorem baseline_of_no_prior (recs : List MetricRecord)
    (ch : RawDaily → Option ℚ) (d : Nat) (h : ∀ x ∈ recs, ¬ x.date < d) :
    baseline recs ch d = none := by
  simp [baseline, trailingWindow_of_no_prior recs ch d h, median, sortedAsc]

/-- C5: a channel with an absent value or an undefined baseline is never
flagged, and on a cold start (no prior day at all, as for the first day of a
subject with fewer than 7 days of history) no flag is raised and severity is
0; the detector is a total function, so no error is raised. -/
theorem no_baseline_no_flag (T : Thresholds) (recs : List MetricRecord)
    (r : MetricRecord) :
    ((r.metrics.hrv = none ∨ baseline recs (fun m => m.hrv) r.date = none) →
      (computeFlags T recs r).low_hrv = false) ∧
    ((r.metrics.resting_hr = none ∨
        baseline recs (fun m => m.resting_hr) r.date = none) →
      (computeFlags T recs r).high_resting_hr = false) ∧
    ((r.metrics.sleep_score = none ∨
        baseline recs (fun m => m.sleep_score) r.date = none) →
      (computeFlags T recs r).low_sleep = false) ∧
    ((r.metrics.steps = none ∨ baseline recs (fun m => m.steps) r.date = none) →
      (computeFlags T recs r).low_steps = false) ∧
    ((∀ x ∈ recs, ¬ x.date < r.date) →
      (computeFlags T recs r).is_anomalous = false ∧
      (computeFlags T recs r).severity = 0) := by
  refine ⟨?_, ?_, ?_, ?_, ?_⟩
  · rintro (hv | hb)
    · simp [computeFlags, hv, relLow_of_value_none]
    · simp [computeFlags, hb, relLow_of_baseline_none]
  · rintro (hv | hb)
    · simp [computeFlags, hv, relHigh_of_value_none]
    · simp [computeFlags, hb, relHigh_of_baseline_none]
  · rintro (hv | hb)
    · simp [computeFlags, hv, relLow_of_value_none]
    · simp [computeFlags, hb, relLow_of_baseline_none]
  · rintro (hv | hb)
    · simp [computeFlags, hv, relLow_of_value_none]
    · simp [computeFlags, hb, relLow_of_baseline_none]
  · intro h
    have hb : ∀ ch : RawDaily → Option ℚ, baseline recs ch r.date = none :=
      fun ch => baseline_of_no_prior recs ch r.date h
    simp [computeFlags, hb, relLow_of_baseline_none, relHigh_of_baseline_none]

/-- C5 witness: a one-day history (cold start) produces no flags and
severity 0 for that day. -/
theorem no_baseline_no_flag_witness :
    (computeFlags ⟨15/100, 15/100, 15/100, 15/100⟩
        [⟨1, some 50, some 60, some 80, some 10000⟩]
        ⟨1, some 50, some 60, some 80, some 10000⟩).is_anomalous = false ∧
    (computeFlags ⟨15/100, 15/100, 15/100, 15/100⟩
        [⟨1, some 50, some 60, some 80, some 10000⟩]
        ⟨1, some 50, some 60, some 80, some 10000⟩).severity = 0 :=
  (no_baseline_no_flag ⟨15/100, 15/100, 15/100, 15/100⟩
      [⟨1, some 50, some 60, some 80, some 10000⟩]
      ⟨1, some 50, some 60, some 80, some 10000⟩).2.2.2.2 (by decide)

/-! ### The HRV trend chart baseline (Alert.tsx, HrvTrendChart) -/

/-- HrvTrendChart's baseline useMemo, embedded from the frontend source: the
values of the displayed data points (nulls dropped) are sorted ascending and
the median of ALL of them is returned; none when there is no data. -/
def chartBaseline (data : List (Option ℚ)) : Option ℚ :=
  if data.length = 0 then none
  else
    let values := data.filterMap id
    if values.length = 0 then none
    else
      let sorted := sortedAsc values
      let mid := values.length / 2
      if values.length % 2 = 0 then
        some ((sorted.getD (mid - 1) 0 + sorted.getD mid 0) / 2)
      else some (sorted.getD mid 0)

/-- An 8-day HRV history: seven steady days then a drop on day 8. -/
def hrvHistory : List MetricRecord :=
  [⟨1, some 50, none, none, none⟩, ⟨2, some 52, none, none, none⟩,
   ⟨3, some 49, none, none, none⟩, ⟨4, some 51, none, none, none⟩,
   ⟨5, some 53, none, none, none⟩, ⟨6, some 50, none, none, none⟩,
   ⟨7, some 52, none, none, none⟩, ⟨8, some 38, none, none, none⟩]

/-- C2 failing input: on the 8-day HRV series 50,52,49,51,53,50,52,38 the
chart draws its baseline at 50.5, the median of all displayed values
including the evaluated day 8, while the trailing 7-day median strictly
before day 8 — the baseline the spec (and the chart's own comment) demand —
is 51. -/
theorem chartBaseline_not_trailing_median :
    chartBaseline (hrvHistory.map (fun r => r.metrics.hrv)) = some (101 / 2) ∧
    baseline hrvHistory (fun m => m.hrv) 8 = some 51 ∧
    (101 / 2 : ℚ) ≠ 51 := by
  refine ⟨?_, ?_, by norm_num⟩
  · norm_num [chartBaseline, hrvHistory, sortedAsc, median, List.insertionSort,
      List.orderedInsert, List.filterMap, List.getD]
  · norm_num [baseline, hrvHistory, trailingWindow, median, sortedAsc,
      List.insertionSort, List.orderedInsert, List.filterMap, List.getD]

/-! ### The two-tier cache layer -/

/-- One cache entry: metrics table, anomaly list, explanation text, write
time (spec 3, CacheEntry). -/
structure CacheEntry where
  metrics_table : List (MetricRecord × AnomalyFlags)
  anomaly_list : List (MetricRecord × AnomalyFlags)
  explanation_text : String
  written_at : Nat

/-- Modelled from the spec: the backend cache (src/redis_cache.py and
src/memory_cache.py in the README layout) is not present under the frontend
sources.  Local tier always present; the shared tier is optional
infrastructure, none meaning unreachable. -/
structure CacheState where
  localTier : Nat → Option CacheEntry
  sharedTier : Option (Nat → Option CacheEntry)

/-- Outcome of the shared-tier leg of a put: written, or unavailable — a
recorded condition, never an error. -/
inductive SharedWriteResult
  | written
  | unavailable
deriving DecidableEq, Repr

/-- Modelled from the spec: spec 4.3 put — write the local tier
unconditionally; write the shared tier best-effort, reporting an unreachable
shared tier as a condition in the returned status rather than failing. -/
def cachePut (st : CacheState) (k : Nat) (e : CacheEntry) :
    CacheState × SharedWriteResult :=
  let localTier2 : Nat → Option CacheEntry :=
    fun q => if q = k then some e else st.localTier q
  match st.sharedTier with
  | none => ({ localTier := localTier2, sharedTier := none },
      SharedWriteResult.unavailable)
  | some sh =>
    ({ localTier := localTier2,
       sharedTier := some (fun q => if q = k then some e else sh q) },
      SharedWriteResult.written)

/-- Modelled from the spec: spec 4.3 get — local tier first, then the shared
tier when reachable. -/
def cacheGet (st : CacheState) (k : Nat) : Option CacheEntry :=
  match st.localTier k with
  | some e => some e
  | none =>
    match st.sharedTier with
    | some sh => sh k
    | none => none

/-! ### The pipeline orchestrator -/

/-- States of the per-invocation state machine (spec 4.4). -/
inductive PState
  | idle
  | resolvingGaps
  | fetching
  | detecting
  | persisting
  | explaining
  | cached
  | done
  | failed
deriving DecidableEq, Repr

/-- The transient result value of one run (spec 3, PipelineRunResult),
carrying the fields of the client-visible PipelineRunResponse (lib/api.ts):
status, recent_anomalies, explanation, blob path and metrics_count. -/
structure PipelineRunResult where
  status : String
  range_start : Nat
  range_finish : Nat
  new_dates : List Nat
  records : List (MetricRecord × AnomalyFlags)
  recent_anomalies : List (MetricRecord × AnomalyFlags)
  explanation : String
  blob_path : String
  metrics_count : Nat
  written_at : Nat

/-- Storage locator for a subject's curated daily metrics (spec 6 layout). -/
def blobPath (key : Nat) : String :=
  "curated/daily_metrics/subject=" ++ toString key

/-- The outcome of one orchestration: the result (none when the run failed),
the number of upstream fetch calls made, durable storage and cache after the
run, and the sequence of visited states. -/
structure RunOutcome where
  result : Option PipelineRunResult
  fetchCalls : Nat
  storedAfter : List MetricRecord
  cacheAfter : CacheState
  trace : List PState

/-- Modelled from the spec: the common Detecting → Persisting → Explaining →
Cached → Done tail of a run (spec 4.4): detect over the full history, keep
the requested range, collect anomalies, request an explanation (absent on
failure but still a successful run), populate the cache, return the result. -/
def completeRun (T : Thresholds) (explain : List Nat → Option String)
    (now key : Nat) (cache : CacheState) (storedAll : List MetricRecord)
    (newDates : List Nat) (start finish calls : Nat)
    (fetchingVisited : Bool) : RunOutcome :=
  let enriched := detect T storedAll
  let inRange := enriched.filter
    (fun p => decide (start ≤ p.1.date) && decide (p.1.date ≤ finish))
  let anomalies := inRange.filter (fun p => p.2.is_anomalous)
  let expl := explain (anomalies.map (fun p => p.1.date))
  let entry : CacheEntry := ⟨inRange, anomalies, expl.getD "", now⟩
  let result : PipelineRunResult :=
    { status := "success", range_start := start, range_finish := finish
      new_dates := newDates, records := inRange, recent_anomalies := anomalies
      explanation := expl.getD "", blob_path := blobPath key
      metrics_count := inRange.length, written_at := now }
  { result := some result, fetchCalls := calls, storedAfter := storedAll
    cacheAfter := (cachePut cache key entry).1
    trace := if fetchingVisited then
        [PState.idle, PState.resolvingGaps, PState.fetching, PState.detecting,
         PState.persisting, PState.explaining, PState.cached, PState.done]
      else
        [PState.idle, PState.resolvingGaps, PState.detecting, PState.persisting,
         PState.explaining, PState.cached, PState.done] }

/-- Modelled from the spec: the incremental run (spec 4.4) — resolve the gap
against durable storage; when no date is missing skip Fetching entirely
(idempotent fast path, zero upstream calls); otherwise fetch exactly the
missing dates, failing the run only when every fetch fails, persist the
fetched days, and complete the run. -/
def runIncremental (T : Thresholds) (fetch : Nat → Option RawDaily)
    (explain : List Nat → Option String) (now key : Nat) (cache : CacheState)
    (stored : List MetricRecord) (start finish : Nat) : RunOutcome :=
  let missing := dateGapResolver start finish (stored.map (fun r => r.date))
  if missing.isEmpty then
    completeRun T explain now key cache stored [] start finish 0 false
  else
    let fetched := missing.filterMap
      (fun d => (fetch d).map (fun raw => MetricRecord.mk d raw))
    if fetched.isEmpty then
      { result := none, fetchCalls := missing.length, storedAfter := stored
        cacheAfter := cache
        trace := [PState.idle, PState.resolvingGaps, PState.fetching,
          PState.failed] }
    else
      completeRun T explain now key cache (stored ++ fetched)
        (fetched.map (fun r => r.date)) start finish missing.length true

/-- A run result with its timestamp erased, for comparisons up to
timestamps. -/
def stripTime (r : PipelineRunResult) : PipelineRunResult :=
  { r with written_at := 0 }

theorem dateGapResolver_eq_nil (start finish : Nat) (stored : List Nat)
    (hcov : ∀ d ∈ rangeList start finish, d ∈ stored) :
    dateGapResolver start finish stored = [] := by
  rw [dateGapResolver, List.filter_eq_nil_iff]
  intro d hd
  simp [hcov d hd]

/-- C4: when durable storage already covers the requested range (no new
upstream data), two successive incremental runs return the same result up to
the timestamp, and each of them — in particular the second — makes zero
upstream fetch calls and never visits the Fetching state. -/
theorem run_incremental_idempotent (T : Thresholds)
    (fetch : Nat → Option RawDaily) (explain : List Nat → Option String)
    (t1 t2 key : Nat) (cache1 cache2 : CacheState)
    (stored : List MetricRecord) (start finish : Nat)
    (hcov : ∀ d ∈ rangeList start finish, d ∈ stored.map (fun r => r.date)) :
    (runIncremental T fetch explain t2 key cache2
        (runIncremental T fetch explain t1 key cache1 stored start
          finish).storedAfter start finish).fetchCalls = 0 ∧
    PState.fetching ∉ (runIncremental T fetch explain t2 key cache2
        (runIncremental T fetch explain t1 key cache1 stored start
          finish).storedAfter start finish).trace ∧
    (runIncremental T fetch explain t2 key cache2
        (runIncremental T fetch explain t1 key cache1 stored start
          finish).storedAfter start finish).result.map stripTime =
      (runIncremental T fetch explain t1 key cache1 stored start
        finish).result.map stripTime ∧
    (runIncremental T fetch explain t1 key cache1 stored start
      finish).fetchCalls = 0 := by
  have hmiss : dateGapResolver start finish (stored.map (fun r => r.date)) =
      [] := dateGapResolver_eq_nil _ _ _ hcov
  have h1 : runIncremental T fetch explain t1 key cache1 stored start finish =
      completeRun T explain t1 key cache1 stored [] start finish 0 false := by
    simp [runIncremental, hmiss]
  have hsa : (completeRun T explain t1 key cache1 stored [] start finish 0
      false).storedAfter = stored := rfl
  have h2 : runIncremental T fetch explain t2 key cache2 stored start finish =
      completeRun T explain t2 key cache2 stored [] start finish 0 false := by
    simp [runIncremental, hmiss]
  rw [h1, hsa, h2]
  refine ⟨rfl, ?_, ?_, rfl⟩
  · simp [completeRun]
  · simp [completeRun, stripTime]

/-- A 15 percent threshold on every channel, as in the spec's scenarios. -/
def demoThresholds : Thresholds := ⟨15/100, 15/100, 15/100, 15/100⟩

/-- A cache with an empty local tier and no shared tier. -/
def emptyCache : CacheState := ⟨fun _ => none, none⟩

/-- Two stored days of history. -/
def demoStored : List MetricRecord :=
  [⟨1, some 50, none, none, none⟩, ⟨2, some 52, none, none, none⟩]

/-- An upstream source with no data at all. -/
def noFetch : Nat → Option RawDaily := fun _ => none

/-- An explanation collaborator that always fails (recoverable). -/
def noExplain : List Nat → Option String := fun _ => none

/-- C4 witness: a fully-covered two-day range, run twice. -/
theorem run_incremental_idempotent_witness :
    (runIncremental demoThresholds noFetch noExplain 20 1 emptyCache
        (runIncremental demoThresholds noFetch noExplain 10 1 emptyCache
          demoStored 1 2).storedAfter 1 2).fetchCalls = 0 ∧
    PState.fetching ∉ (runIncremental demoThresholds noFetch noExplain 20 1
        emptyCache (runIncremental demoThresholds noFetch noExplain 10 1
          emptyCache demoStored 1 2).storedAfter 1 2).trace ∧
    (runIncremental demoThresholds noFetch noExplain 20 1 emptyCache
        (runIncremental demoThresholds noFetch noExplain 10 1 emptyCache
          demoStored 1 2).storedAfter 1 2).result.map stripTime =
      (runIncremental demoThresholds noFetch noExplain 10 1 emptyCache
        demoStored 1 2).result.map stripTime ∧
    (runIncremental demoThresholds noFetch noExplain 10 1 emptyCache
      demoStored 1 2).fetchCalls = 0 :=
  run_incremental_idempotent demoThresholds noFetch noExplain 10 20 1
    emptyCache emptyCache demoStored 1 2 (by decide)

/-- C6: a put writes the local tier unconditionally; an unreachable shared
tier is reported as the unavailable condition, not an error (the function is
total), and the pipeline result of a run is unchanged by shared-tier
unavailability. -/
theorem cache_put_best_effort (st : CacheState) (k : Nat) (e : CacheEntry) :
    (cachePut st k e).1.localTier k = some e ∧
    (st.sharedTier = none →
      (cachePut st k e).2 = SharedWriteResult.unavailable ∧
      (cachePut st k e).1.sharedTier = none) ∧
    (∀ T fetch explain now key stored start finish,
      (runIncremental T fetch explain now key st stored start finish).result =
        (runIncremental T fetch explain now key
          { st with sharedTier := none } stored start finish).result) := by
  refine ⟨?_, ?_, ?_⟩
  · cases hsh : st.sharedTier <;> simp [cachePut, hsh]
  · intro h; simp [cachePut, h]
  · intro T fetch explain now key stored start finish
    simp only [runIncremental]
    split
    · rfl
    · split
      · rfl
      · rfl

/-- C6 witness: put into a cache whose shared tier is absent. -/
theorem cache_put_best_effort_witness :
    (cachePut emptyCache 1 ⟨[], [], "", 0⟩).1.localTier 1 =
        some ⟨[], [], "", 0⟩ ∧
    (cachePut emptyCache 1 ⟨[], [], "", 0⟩).2 =
        SharedWriteResult.unavailable :=
  ⟨(cache_put_best_effort emptyCache 1 ⟨[], [], "", 0⟩).1,
   ((cache_put_best_effort emptyCache 1 ⟨[], [], "", 0⟩).2.1 rfl).1⟩

theorem completeRun_result_shape (T : Thresholds)
    (explain : List Nat → Option String) (now key : Nat) (cache : CacheState)
    (storedAll : List MetricRecord) (newDates : List Nat)
    (start finish calls : Nat) (fv : Bool) :
    ∀ r, (completeRun T explain now key cache storedAll newDates start finish
        calls fv).result = some r →
      r.status = "success" ∧
      r.metrics_count = r.records.length ∧
      r.recent_anomalies = r.records.filter (fun p => p.2.is_anomalous) ∧
      ((∃ s, explain (r.recent_anomalies.map (fun p => p.1.date)) = some s ∧
          r.explanation = s) ∨
        (explain (r.recent_anomalies.map (fun p => p.1.date)) = none ∧
          r.explanation = "")) := by
  intro r hr
  simp only [completeRun, Option.some.injEq] at hr
  subst hr
  refine ⟨rfl, rfl, rfl, ?_⟩
  cases hexp : explain ((((detect T storedAll).filter
      (fun p => decide (start ≤ p.1.date) && decide (p.1.date ≤ finish))).filter
      (fun p => p.2.is_anomalous)).map (fun p => p.1.date)) with
  | some s => exact Or.inl ⟨s, by simp [hexp]⟩
  | none => exact Or.inr (by simp [hexp])

/-- C7: every run that does not fail entirely returns a result carrying a
status, a metrics count equal to the number of returned records, the anomaly
list derived from those records, and the explanation payload when the
explanation collaborator produced one (empty when it failed); a run with no
result ended in the Failed state. -/
theorem run_result_shape (T : Thresholds) (fetch : Nat → Option RawDaily)
    (explain : List Nat → Option String) (now key : Nat) (cache : CacheState)
    (stored : List MetricRecord) (start finish : Nat) :
    (∀ r, (runIncremental T fetch explain now key cache stored start
        finish).result = some r →
      r.status = "success" ∧
      r.metrics_count = r.records.length ∧
      r.recent_anomalies = r.records.filter (fun p => p.2.is_anomalous) ∧
      ((∃ s, explain (r.recent_anomalies.map (fun p => p.1.date)) = some s ∧
          r.explanation = s) ∨
        (explain (r.recent_anomalies.map (fun p => p.1.date)) = none ∧
          r.explanation = ""))) ∧
    ((runIncremental T fetch explain now key cache stored start
        finish).result = none →
      (runIncremental T fetch explain now key cache stored start
        finish).trace.getLast? = some PState.failed) := by
  cases h1 : (dateGapResolver start finish
      (stored.map (fun r => r.date))).isEmpty with
  | true =>
    constructor
    · intro r hr
      simp only [runIncremental, h1, if_true] at hr
      exact completeRun_result_shape T explain now key cache stored [] start
        finish 0 false r hr
    · intro hn
      simp only [runIncremental, h1, if_true] at hn
      exact absurd hn (by simp [completeRun])
  | false =>
    cases h2 : ((dateGapResolver start finish
        (stored.map (fun r => r.date))).filterMap
        (fun d => (fetch d).map (fun raw => MetricRecord.mk d raw))).isEmpty with
    | true =>
      constructor
      · intro r hr
        simp only [runIncremental, h1, h2] at hr
        simp at hr
      · intro hn
        simp only [runIncremental, h1, h2]
        simp
    | false =>
      constructor
      · intro r hr
        simp only [runIncremental, h1, h2] at hr
        exact completeRun_result_shape T explain now key cache _ _ start
          finish _ true r hr
      · intro hn
        simp only [runIncremental, h1, h2] at hn
        exact absurd hn (by simp [completeRun])

/-- C7 witness: a run over an empty store with one fetchable day. -/
theorem run_result_shape_witness :
    (∀ r, (runIncremental demoThresholds
        (fun _ => some ⟨some 50, some 60, some 80, some 10000⟩) noExplain 10 1
        emptyCache [] 1 1).result = some r →
      r.status = "success" ∧
      r.metrics_count = r.records.length ∧
      r.recent_anomalies = r.records.filter (fun p => p.2.is_anomalous) ∧
      ((∃ s, noExplain (r.recent_anomalies.map (fun p => p.1.date)) = some s ∧
          r.explanation = s) ∨
        (noExplain (r.recent_anomalies.map (fun p => p.1.date)) = none ∧
          r.explanation = ""))) ∧
    ((runIncremental demoThresholds
        (fun _ => some ⟨some 50, some 60, some 80, some 10000⟩) noExplain 10 1
        emptyCache [] 1 1).result = none →
      (runIncremental demoThresholds
        (fun _ => some ⟨some 50, some 60, some 80, some 10000⟩) noExplain 10 1
        emptyCache [] 1 1).trace.getLast? = some PState.failed) :=
  run_result_shape demoThresholds
    (fun _ => some ⟨some 50, some 60, some 80, some 10000⟩) noExplain 10 1
    emptyCache [] 1 1

/-! ### The cron route (app/api/cron/route.ts) -/

/-- The JSON body of a cron GET response: the 401 error body with message
Unauthorized cron request, the ok body wrapping the backend response, or the
500 Cron job failed body with the caught error's message. -/
inductive CronBody
  | unauthorized
  | okBody (backendResponse : String)
  | cronFailed (details : String)
deriving DecidableEq, Repr

/-- A cron GET response paired with whether the backend pipeline-run POST was
performed. -/
structure CronResult where
  status : Nat
  body : CronBody
  backendCalled : Bool
deriving DecidableEq, Repr

/-- The cron route handler, embedded from route.ts: compare the Authorization
header against the Bearer CRON_SECRET string; on mismatch answer 401 without
touching the backend; otherwise POST to the backend pipeline run and wrap its
parsed response, answering 500 if that call throws. -/
def cronGet (secret : String) (authHeader : Option String)
    (backendPost : Unit → Except String String) : CronResult :=
  if authHeader = some ("Bearer " ++ secret) then
    match backendPost () with
    | Except.ok data => ⟨200, CronBody.okBody data, true⟩
    | Except.error msg => ⟨500, CronBody.cronFailed msg, true⟩
  else ⟨401, CronBody.unauthorized, false⟩

/-- C9: a request whose Authorization header is not exactly Bearer followed
by the cron secret gets a 401 unauthorized-cron-request response and causes
no backend call; an authorized request does trigger the backend POST. -/
theorem cron_unauthorized_gate (secret : String) (authHeader : Option String)
    (backendPost : Unit → Except String String) :
    (authHeader ≠ some ("Bearer " ++ secret) →
      cronGet secret authHeader backendPost =
        ⟨401, CronBody.unauthorized, false⟩) ∧
    (authHeader = some ("Bearer " ++ secret) →
      (cronGet secret authHeader backendPost).backendCalled = true) := by
  constructor
  · intro h
    simp [cronGet, h]
  · intro h
    simp only [cronGet, h, if_pos]
    cases backendPost () <;> rfl

/-- C9 witness: a wrong header is rejected without a backend call, the exact
header is accepted and calls the backend. -/
theorem cron_unauthorized_gate_witness :
    cronGet "s3cret" (some "Bearer nope") (fun _ => Except.ok "ran") =
      ⟨401, CronBody.unauthorized, false⟩ ∧
    (cronGet "s3cret" (some "Bearer s3cret")
      (fun _ => Except.ok "ran")).backendCalled = true :=
  ⟨(cron_unauthorized_gate "s3cret" (some "Bearer nope")
      (fun _ => Except.ok "ran")).1 (by decide),
   (cron_unauthorized_gate "s3cret" (some "Bearer s3cret")
      (fun _ => Except.ok "ran")).2 rfl⟩

/-! ### ApiClient.fetch (frontend lib/api.ts) -/

/-- An HTTP response as ApiClient.fetch observes it; body is the parsed JSON
value, none when the body text is not valid JSON. -/
structure HttpResponse (α : Type) where
  ok : Bool
  status : Nat
  statusText : String
  body : Option α

/-- The Error thrown by ApiClient.fetch: its message plus the status code the
client attaches to it. -/
structure ApiError where
  status : Nat
  message : String
deriving DecidableEq, Repr

/-- What a call to ApiClient.fetch can produce: the parsed body, the thrown
ApiError for a non-ok response, or the propagated json-parse rejection when
an ok response has a non-JSON body. -/
inductive FetchOutcome (α : Type)
  | success (value : α)
  | apiError (e : ApiError)
  | parseError
deriving DecidableEq

/-- JavaScript string defaulting: s when present and non-empty (truthy), the
fallback otherwise. -/
def jsOr (s : Option String) (fallback : String) : String :=
  match s with
  | some v => if v = "" then fallback else v
  | none => fallback

/-- The error message ApiClient.fetch builds for a non-ok response: the JSON
body's detail field, else its message field, else the HTTP-error default;
when the body is not JSON, the statusText, else the same default. -/
def fetchErrorMessage {α : Type} (getDetail getMessage : α → Option String)
    (resp : HttpResponse α) : String :=
  let base := "HTTP error! status: " ++ toString resp.status
  match resp.body with
  | some b => jsOr (getDetail b) (jsOr (getMessage b) base)
  | none => jsOr (some resp.statusText) base

/-- ApiClient.fetch, embedded from lib/api.ts: throw the built ApiError when
the response is not ok, otherwise return the parsed JSON body (propagating
the parse rejection if the ok body is not JSON). -/
def apiFetch {α : Type} (getDetail getMessage : α → Option String)
    (resp : HttpResponse α) : FetchOutcome α :=
  if resp.ok then
    match resp.body with
    | some b => FetchOutcome.success b
    | none => FetchOutcome.parseError
  else
    FetchOutcome.apiError ⟨resp.status,
      fetchErrorMessage getDetail getMessage resp⟩

/-- C10 counterexample: for a non-ok 404 response whose JSON body has neither
a detail nor a message field, the thrown message is the HTTP-error default,
not the status text Not Found as the claim states. -/
theorem apiFetch_default_message_not_statusText :
    apiFetch (fun _ : Unit => none) (fun _ => none)
      ⟨false, 404, "Not Found", some ()⟩ =
      FetchOutcome.apiError ⟨404, "HTTP error! status: 404"⟩ ∧
    "HTTP error! status: 404" ≠ "Not Found" :=
  ⟨rfl, by decide⟩

/-- C10 (amended): apiFetch throws exactly on non-ok responses (an ok
response returns its parsed JSON body) and never returns a value for a
non-ok response; the thrown error carries the HTTP status, and its message
is the JSON body's detail field when non-empty, else the message field when
non-empty, else the HTTP-error default; for a non-JSON body it is the status
text when non-empty, else the same default. -/
theorem apiFetch_error_behavior {α : Type}
    (getDetail getMessage : α → Option String) (resp : HttpResponse α) :
    (resp.ok = false →
      apiFetch getDetail getMessage resp = FetchOutcome.apiError
        ⟨resp.status, fetchErrorMessage getDetail getMessage resp⟩ ∧
      ∀ v, apiFetch getDetail getMessage resp ≠ FetchOutcome.success v) ∧
    (resp.ok = true → ∀ b, resp.body = some b →
      apiFetch getDetail getMessage resp = FetchOutcome.success b) ∧
    (∀ b, resp.body = some b → ∀ d, getDetail b = some d → d ≠ "" →
      fetchErrorMessage getDetail getMessage resp = d) ∧
    (∀ b, resp.body = some b → (getDetail b = none ∨ getDetail b = some "") →
      ∀ m, getMessage b = some m → m ≠ "" →
      fetchErrorMessage getDetail getMessage resp = m) ∧
    (∀ b, resp.body = some b → (getDetail b = none ∨ getDetail b = some "") →
      (getMessage b = none ∨ getMessage b = some "") →
      fetchErrorMessage getDetail getMessage resp =
        "HTTP error! status: " ++ toString resp.status) ∧
    (resp.body = none → resp.statusText ≠ "" →
      fetchErrorMessage getDetail getMessage resp = resp.statusText) ∧
    (resp.body = none → resp.statusText = "" →
      fetchErrorMessage getDetail getMessage resp =
        "HTTP error! status: " ++ toString resp.status) := by
  refine ⟨?_, ?_, ?_, ?_, ?_, ?_, ?_⟩
  · intro h
    refine ⟨by simp [apiFetch, h], ?_⟩
    intro v
    simp [apiFetch, h]
  · intro h b hb
    simp [apiFetch, h, hb]
  · intro b hb d hd hne
    simp [fetchErrorMessage, hb, jsOr, hd, hne]
  · rintro b hb (h1 | h1) m hm hne <;>
      simp [fetchErrorMessage, hb, jsOr, h1, hm, hne]
  · rintro b hb (h1 | h1) (h2 | h2) <;>
      simp [fetchErrorMessage, hb, jsOr, h1, h2]
  · intro hb hne
    simp [fetchErrorMessage, hb, jsOr, hne]
  · intro hb he
    simp [fetchErrorMessage, hb, jsOr, he]

/-- C10 witness: a non-ok 500 response with a detail field throws that
detail with status 500, and an ok 200 response returns its body. -/
theorem apiFetch_error_behavior_witness :
    apiFetch (fun _ : Unit => some "boom") (fun _ => none)
        ⟨false, 500, "ISE", some ()⟩ =
      FetchOutcome.apiError ⟨500, fetchErrorMessage
        (fun _ : Unit => some "boom") (fun _ => none)
        ⟨false, 500, "ISE", some ()⟩⟩ ∧
    fetchErrorMessage (fun _ : Unit => some "boom") (fun _ => none)
        ⟨false, 500, "ISE", some ()⟩ = "boom" ∧
    apiFetch (fun _ : Unit => some "boom") (fun _ => none)
        ⟨true, 200, "OK", some ()⟩ = FetchOutcome.success () :=
  ⟨((apiFetch_error_behavior (fun _ : Unit => some "boom") (fun _ => none)
      ⟨false, 500, "ISE", some ()⟩).1 rfl).1,
   (apiFetch_error_behavior (fun _ : Unit => some "boom") (fun _ => none)
      ⟨false, 500, "ISE", some ()⟩).2.2.1 () rfl "boom" rfl (by decide),
   (apiFetch_error_behavior (fun _ : Unit => some "boom") (fun _ => none)
      ⟨true, 200, "OK", some ()⟩).2.1 rfl () rfl⟩

end Chronic
